import Mathlib

/-!
Verification development for the MinuteMate repository.

The Python sources (`audio_listener.py`, `app.py`, `nlp_processor.py`) are
shallowly embedded below: pure computations become Lean functions, the
stateful capture loop becomes an explicit step function over a listener
state, and external libraries (PyAudio, the `wave` module, `re.findall`,
the ML collaborators) appear either as abstract function parameters or as
explicit event lists fed to the loop.  Machine reals are modelled exactly:
all the arithmetic the source performs on int16 samples (squares, sums of
at most 2^40, division by the chunk length, a square root compared against
the representable constant 500) is exact in IEEE double precision, so the
integer/rational renderings below classify chunks identically to the
NumPy code.
-/

namespace MinuteMate

/-! ## Configuration constants (`AudioListener.__init__`) -/

/-- `self.CHUNK = 1024` : samples per chunk read from the device. -/
def CHUNK : ℕ := 1024

/-- `self.CHANNELS = 1` : mono capture. -/
def CHANNELS : ℕ := 1

/-- `self.RATE = 16000` : sample rate in Hz. -/
def RATE : ℕ := 16000

/-- `self.SILENCE_THRESHOLD = 500` : RMS threshold on the int16 scale. -/
def SILENCE_THRESHOLD : ℤ := 500

/-- `self.SILENCE_SECONDS = 30` : auto-stop duration. -/
def SILENCE_SECONDS : ℚ := 30

/-- `self.p.get_sample_size(pyaudio.paInt16) = 2` bytes per sample. -/
def SAMPLE_WIDTH : ℕ := 2

/-! ## Silence classification (`audio_listener.py` lines 50-54)

The source computes, per chunk,
`rms = np.sqrt(np.mean(audio_data.astype(float)**2))` and then branches on
`rms < self.SILENCE_THRESHOLD`.  For int16 samples the squares, their sum
(at most 1024 * 2^30 < 2^53) and the mean (a division by the power of two
1024) are exact in double precision, and `sqrt` is correctly rounded and
monotone with 500 exactly representable, so the float comparison agrees
with the exact mathematical comparison `sqrt(sum/n) < 500`, i.e. with
`sum < 500^2 * n` for a nonempty chunk.  (`np.mean` of an empty array is
NaN, and `NaN < 500` is false, whence the `0 < length` conjunct.) -/

/-- Sum of squared samples of a chunk, `np.sum(audio_data.astype(float)**2)`. -/
def sq_sum (chunk : List ℤ) : ℤ := (chunk.map fun s => s * s).sum

/-- The silence test `rms < SILENCE_THRESHOLD` of the capture loop,
rendered exactly over the integers (see the header comment above). -/
def isSilent (chunk : List ℤ) : Bool :=
  decide (0 < chunk.length ∧ sq_sum chunk < SILENCE_THRESHOLD ^ 2 * (chunk.length : ℤ))

/-! ## Listener state (`AudioListener` instance attributes) -/

/-- The mutable state of an `AudioListener`: `self.recording`,
`self.silence_start_time` (a wall-clock time or `None`) and `self.frames`
(the buffered chunks, in temporal order).  Times are modelled as rationals. -/
structure ListenerState where
  recording : Bool
  silence_start_time : Option ℚ
  frames : List (List ℤ)
deriving DecidableEq, Repr

/-- State of a freshly constructed `AudioListener` (`__init__`):
`recording = False`, `silence_start_time = None`, `frames` empty. -/
def initial_listener : ListenerState :=
  { recording := false, silence_start_time := none, frames := [] }

namespace AudioListener

/-- `AudioListener.stop` (lines 97-102): no-op when not recording, otherwise
clears the cooperative `recording` flag. -/
def stop (s : ListenerState) : ListenerState :=
  if s.recording = false then s else { s with recording := false }

end AudioListener

/-- One iteration of the `while self.recording` body of `_recording_loop`
(lines 47-61), processing the chunk `data` read at wall-clock time `t`:
append to `self.frames`, classify silence, maintain
`self.silence_start_time`, and call `self.stop()` internally once more than
`SILENCE_SECONDS` have elapsed since silence began. -/
def loopBody (s : ListenerState) (t : ℚ) (data : List ℤ) : ListenerState :=
  let s1 : ListenerState := { s with frames := s.frames ++ [data] }
  if isSilent data then
    match s1.silence_start_time with
    | none => { s1 with silence_start_time := some t }
    | some t0 =>
      if t - t0 > SILENCE_SECONDS then AudioListener.stop s1 else s1
  else
    { s1 with silence_start_time := none }

/-- One interaction of the capture loop with the device stream: either a
successful `stream.read` returning a chunk at a given time, or a read that
raises an exception. -/
inductive ReadEvent where
  | chunk : ℚ → List ℤ → ReadEvent
  | fail : ReadEvent
deriving DecidableEq, Repr

/-- How a run of the `while` loop ended relative to a finite list of
available read results: still blocked waiting for the next read
(`running`), exited normally because `self.recording` became false
(`exited`), or terminated by an exception escaping the body (`raised`). -/
inductive LoopExit where
  | running
  | exited
  | raised
deriving DecidableEq, Repr

/-- The `while self.recording` loop of `_recording_loop`, driven by a
finite list of read events.  The flag is checked at the top of each
iteration; a failing read propagates an exception out of the loop. -/
def runLoopAux : ListenerState → List ReadEvent → ListenerState × LoopExit
  | s, [] => if s.recording then (s, .running) else (s, .exited)
  | s, e :: rest =>
    if s.recording then
      match e with
      | .fail => (s, .raised)
      | .chunk t c => runLoopAux (loopBody s t c) rest
    else (s, .exited)

/-- Map timed chunks to successful read events. -/
def chunkEvents (l : List (ℚ × List ℤ)) : List ReadEvent :=
  l.map fun e => ReadEvent.chunk e.1 e.2

/-! ## Saving (`AudioListener._save_recording`, lines 72-86) -/

/-- The WAV container written via the `wave` module: header fields set by
`setnchannels` / `setsampwidth` / `setframerate`, and the PCM payload
(`data` holds the int16 samples in written order; the module derives the
header's frame count from the number of payload bytes). -/
structure WavFile where
  nchannels : ℕ
  sampwidth : ℕ
  framerate : ℕ
  data : List ℤ
deriving DecidableEq, Repr

/-- Declared frame count of the container: payload length in samples
divided by the channel count (the `wave` module computes
`bytes / (sampwidth * nchannels)` and each sample occupies `sampwidth`
bytes). -/
def WavFile.nframes (w : WavFile) : ℕ := w.data.length / w.nchannels

/-- `_save_recording`: returns early writing nothing when `self.frames` is
empty, otherwise writes one WAV file holding the concatenation of the
buffered chunks in order and clears the buffer.  Result: the file written
(if any) and the buffer contents afterwards. -/
def save_recording (frames : List (List ℤ)) : Option WavFile × List (List ℤ) :=
  if frames = [] then (none, frames)
  else
    (some { nchannels := CHANNELS, sampwidth := SAMPLE_WIDTH,
            framerate := RATE, data := frames.flatten }, [])

/-! ## The whole `_recording_loop` (lines 35-70), with its exception shape

The source wraps stream opening, the loop and `stream.stop_stream();
stream.close()` in a `try`, catches every exception in an `except` clause,
and calls `self._save_recording()` in a `finally` clause.  Consequently the
save runs on every exit path, while the close runs only when the loop exits
normally: an exception in `p.open` or `stream.read` skips straight past the
two close calls. -/

/-- Everything observable about one completed run of `_recording_loop`:
the buffered frames at the moment the loop stopped iterating, whether
`stream.close()` was reached, whether an exception was caught, the WAV
file written by the final save, and the listener state after the save. -/
structure LoopResult where
  exitFrames : List (List ℤ)
  closed : Bool
  raised : Bool
  file : Option WavFile
  finalState : ListenerState
deriving DecidableEq, Repr

/-- `_recording_loop`, driven by whether `p.open` succeeds and by a finite
list of read events.  Returns `none` while the loop is still blocked on a
device read (no exit happened within the supplied events). -/
def recording_loop (openOk : Bool) (s0 : ListenerState) (reads : List ReadEvent) :
    Option LoopResult :=
  if openOk then
    match runLoopAux s0 reads with
    | (_, .running) => none
    | (s, .exited) =>
      some { exitFrames := s.frames, closed := true, raised := false,
             file := (save_recording s.frames).1,
             finalState := { s with frames := (save_recording s.frames).2 } }
    | (s, .raised) =>
      some { exitFrames := s.frames, closed := false, raised := true,
             file := (save_recording s.frames).1,
             finalState := { s with frames := (save_recording s.frames).2 } }
  else
    some { exitFrames := s0.frames, closed := false, raised := true,
           file := (save_recording s0.frames).1,
           finalState := { s0 with frames := (save_recording s0.frames).2 } }

/-! ## `AudioListener.start` (lines 88-95) -/

/-- Observable outcome of a call to `AudioListener.start`: the listener
state afterwards, the exception raised (the source raises none on any
path), whether a new capture thread was spawned, and the lines printed. -/
structure StartOutcome where
  state : ListenerState
  raised : Option String
  spawned : Bool
  printed : List String
deriving DecidableEq, Repr

namespace AudioListener

/-- `AudioListener.start`: when already recording it prints
`Already recording.` and returns normally without starting anything;
otherwise it sets the flag and spawns the capture thread. -/
def start (s : ListenerState) : StartOutcome :=
  if s.recording then
    { state := s, raised := none, spawned := false, printed := ["Already recording."] }
  else
    { state := { s with recording := true }, raised := none, spawned := true, printed := [] }

end AudioListener

/-! ## `app.py`: global state and endpoints -/

/-- `app_state["status"]` values: `"idle"`, `"recording"`, `"processing"`. -/
inductive AppStatus where
  | idle
  | recording
  | processing
deriving DecidableEq, Repr

/-- Return value of `transcribe_audio_with_timestamps`: the whisper result
dictionary with its `text` and `segments` fields (segments kept abstract as
opaque payloads).  Failure (the function's `return {}` paths) is the `none`
of the surrounding `Option`. -/
structure Transcription where
  text : String
  segments : List String
deriving DecidableEq, Repr

/-- Return value of `process_transcript` (`nlp_processor.py`). -/
structure Processed where
  summary : String
  action_items : List String
  reminders : List String
deriving DecidableEq, Repr

/-- The `final_minutes` dictionary assembled by `process_audio_pipeline`. -/
structure Minutes where
  meeting_id : String
  full_transcript : String
  summary : String
  action_items : List String
  reminders : List String
  timed_transcript : List String
deriving DecidableEq, Repr

/-- A value stored in `app_state["minutes_data"]`: either the error
dictionary or the full minutes.  Both are nonempty Python dictionaries,
hence truthy under `if not minutes`. -/
inductive Result where
  | err : String → Result
  | minutes : Minutes → Result
deriving DecidableEq, Repr

/-- The shared server state: `app_state` plus the module-global `listener`. -/
structure AppState where
  status : AppStatus
  current_meeting_id : Option String
  minutes_data : List (String × Result)
  listener : Option ListenerState
deriving DecidableEq, Repr

/-- `app_state["minutes_data"].get(meeting_id)`: the dictionary is modelled
as an association list whose most recent binding comes first. -/
def dictGet (d : List (String × Result)) (k : String) : Option Result :=
  (d.find? fun p => p.1 == k).map Prod.snd

/-- `process_audio_pipeline(filepath, meeting_id)` (lines 38-65), with the
two external collaborators passed in: the transcription outcome
(`None`-or-result, with falsy `text` meaning failure) and the
`process_transcript` function.  Both branches store under the meeting id,
reset `status` to idle and drop the global `listener`. -/
def process_audio_pipeline (process_transcript : String → Processed)
    (st : AppState) (meeting_id : String)
    (transcription_result : Option Transcription) : AppState :=
  match transcription_result with
  | none =>
    { st with status := .idle,
              minutes_data := (meeting_id, Result.err "Transcription failed.") :: st.minutes_data,
              listener := none }
  | some tr =>
    if tr.text = "" then
      { st with status := .idle,
                minutes_data := (meeting_id, Result.err "Transcription failed.") :: st.minutes_data,
                listener := none }
    else
      let processed_data := process_transcript tr.text
      { st with status := .idle,
                minutes_data :=
                  (meeting_id,
                    Result.minutes
                      { meeting_id := meeting_id,
                        full_transcript := tr.text,
                        summary := processed_data.summary,
                        action_items := processed_data.action_items,
                        reminders := processed_data.reminders,
                        timed_transcript := tr.segments }) :: st.minutes_data,
                listener := none }

/-- The `save_and_process` closure installed by `start_recording`
(lines 126-131): run the original `_save_recording` on the buffered
frames, and only if an output file was produced (`os.path.exists`) launch
`process_audio_pipeline`; otherwise nothing further happens and the state
is left as it was. -/
def save_and_process (process_transcript : String → Processed)
    (st : AppState) (meeting_id : String) (frames : List (List ℤ))
    (transcription_result : Option Transcription) : AppState :=
  match (save_recording frames).1 with
  | some _ => process_audio_pipeline process_transcript st meeting_id transcription_result
  | none => st

/-- `POST /start_recording` (lines 115-141): rejected with HTTP 409 and an
error body while the status is not idle; otherwise a fresh listener is
constructed and started and the phase becomes recording.  Result: new
state, HTTP status code, optional error message. -/
def start_recording (st : AppState) (meeting_id : String) :
    AppState × ℕ × Option String :=
  if st.status ≠ AppStatus.idle then
    (st, 409, some "Application is not idle.")
  else
    ({ status := AppStatus.recording,
       current_meeting_id := some meeting_id,
       minutes_data := st.minutes_data,
       listener := some (AudioListener.start initial_listener).state },
     200, none)

/-- `POST /stop_recording` (lines 143-148): rejected with HTTP 400 unless
the status is recording and a listener exists; otherwise `listener.stop()`
runs and the phase becomes processing. -/
def stop_recording (st : AppState) : AppState × ℕ × Option String :=
  if st.status ≠ AppStatus.recording ∨ st.listener = none then
    (st, 400, some "Not currently recording.")
  else
    ({ st with status := AppStatus.processing,
               listener := st.listener.map AudioListener.stop },
     200, none)

/-- `GET /minutes/<meeting_id>` (lines 150-155): a pure dictionary lookup;
missing (or not yet stored) ids answer HTTP 404. -/
def get_minutes (st : AppState) (meeting_id : String) :
    AppState × ℕ × Option Result :=
  match dictGet st.minutes_data meeting_id with
  | none => (st, 404, none)
  | some m => (st, 200, some m)

/-! ## `nlp_processor.extract_dates` (lines 84-98) -/

/-- The four regular-expression patterns of `extract_dates`, as the source
writes them. -/
def patterns : List String :=
  [ "\\d\x7b4\x7d-\\d\x7b2\x7d-\\d\x7b2\x7d",
    "\\d\x7b1,2\x7d/\\d\x7b1,2\x7d/\\d\x7b4\x7d",
    "(next\\s+(?:Monday|Tuesday|Wednesday|Thursday|Friday|Saturday|Sunday))",
    "(tomorrow)" ]

/-- `extract_dates`: concatenate `re.findall(pattern, text, re.IGNORECASE)`
over the patterns and return `list(set(found_dates))`.  The regex engine is
abstracted as the `findall` parameter; `list(set l)` returns the distinct
elements of `l` in an unspecified order, modelled by `List.dedup`. -/
def extract_dates (findall : String → String → List String) (text : String) :
    List String :=
  ((patterns.map fun p => findall p text).flatten).dedup

/-! ## Scenario harness for the periodic-sound feed

The spec's second capture scenario feeds one non-silent chunk every
29 seconds, silent chunks in between.  We encode such feeds as a list of
cycles, each one a non-silent chunk at a base time followed by silent
chunks read no later than `SILENCE_SECONDS` after that base time — the
29-second cadence is an instance. -/

/-- One cycle of the periodic feed: a chunk read at time `base` that is
meant to be loud, then the quieter reads until the next loud chunk. -/
structure FeedCycle where
  base : ℚ
  loud : List ℤ
  quiet : List (ℚ × List ℤ)
deriving DecidableEq, Repr

/-- Well-formedness of a cycle: the loud chunk really is non-silent, and
every quiet read is silent and happens between the base time and
`SILENCE_SECONDS` after it. -/
abbrev cycleOK (cy : FeedCycle) : Prop :=
  isSilent cy.loud = false ∧
  ∀ e ∈ cy.quiet, isSilent e.2 = true ∧ cy.base ≤ e.1 ∧ e.1 ≤ cy.base + SILENCE_SECONDS

/-- The read events of one cycle. -/
def cycleEvents (cy : FeedCycle) : List ReadEvent :=
  ReadEvent.chunk cy.base cy.loud :: chunkEvents cy.quiet

/-- The read events of a whole periodic feed. -/
def eventsOfCycles : List FeedCycle → List ReadEvent
  | [] => []
  | cy :: rest => cycleEvents cy ++ eventsOfCycles rest

/-! ## Helper lemmas about the capture loop -/

/-- `stop` on a recording listener clears the flag. -/
lemma stop_of_recording {s : ListenerState} (h : s.recording = true) :
    AudioListener.stop s = { s with recording := false } := by
  simp [AudioListener.stop, h]

/-- Once the flag is down the loop does not run at all. -/
lemma runLoopAux_not_recording {s : ListenerState} (h : s.recording = false)
    (l : List ReadEvent) : runLoopAux s l = (s, LoopExit.exited) := by
  cases l <;> simp [runLoopAux, h]

lemma runLoopAux_cons_chunk {s : ListenerState} (h : s.recording = true)
    (t : ℚ) (c : List ℤ) (rest : List ReadEvent) :
    runLoopAux s (ReadEvent.chunk t c :: rest) = runLoopAux (loopBody s t c) rest := by
  simp [runLoopAux, h]

lemma runLoopAux_cons_fail {s : ListenerState} (h : s.recording = true)
    (rest : List ReadEvent) :
    runLoopAux s (ReadEvent.fail :: rest) = (s, LoopExit.raised) := by
  simp [runLoopAux, h]

/-- Running the loop on a concatenation: continue into the second part only
while still running after the first. -/
lemma runLoopAux_append (s : ListenerState) (l1 l2 : List ReadEvent) :
    runLoopAux s (l1 ++ l2) =
      if (runLoopAux s l1).2 = LoopExit.running then
        runLoopAux (runLoopAux s l1).1 l2
      else runLoopAux s l1 := by
  induction l1 generalizing s with
  | nil =>
    cases hr : s.recording with
    | false => simp [runLoopAux_not_recording hr]
    | true => simp [runLoopAux, hr]
  | cons e rest ih =>
    cases hr : s.recording with
    | false => simp [runLoopAux_not_recording hr]
    | true =>
      cases e with
      | fail => simp [runLoopAux_cons_fail hr]
      | chunk t c =>
        rw [List.cons_append, runLoopAux_cons_chunk hr, runLoopAux_cons_chunk hr]
        exact ih _

/-- Loop body on a silent chunk with no silence pending: record the
silence start time. -/
lemma loopBody_silent_none {s : ListenerState} {c : List ℤ} (t : ℚ)
    (hsil : isSilent c = true) (h0 : s.silence_start_time = none) :
    loopBody s t c =
      { s with frames := s.frames ++ [c], silence_start_time := some t } := by
  simp [loopBody, hsil, h0]

/-- Loop body on a silent chunk with silence pending but not yet past the
auto-stop duration: only the frame buffer grows. -/
lemma loopBody_silent_stale {s : ListenerState} {c : List ℤ} {t0 : ℚ} (t : ℚ)
    (hsil : isSilent c = true) (h0 : s.silence_start_time = some t0)
    (hle : ¬ t - t0 > SILENCE_SECONDS) :
    loopBody s t c = { s with frames := s.frames ++ [c] } := by
  simp [loopBody, hsil, h0, hle]

/-- Loop body on a silent chunk past the auto-stop duration: the internal
`self.stop()` clears the recording flag. -/
lemma loopBody_silent_stop {s : ListenerState} {c : List ℤ} {t0 : ℚ} (t : ℚ)
    (hrec : s.recording = true) (hsil : isSilent c = true)
    (h0 : s.silence_start_time = some t0) (hgt : t - t0 > SILENCE_SECONDS) :
    loopBody s t c = { s with frames := s.frames ++ [c], recording := false } := by
  simp [loopBody, hsil, h0, hgt, AudioListener.stop, hrec]

/-- Loop body on a non-silent chunk: the silence start time is cleared. -/
lemma loopBody_loud {s : ListenerState} {c : List ℤ} (t : ℚ)
    (hsil : isSilent c = false) :
    loopBody s t c =
      { s with frames := s.frames ++ [c], silence_start_time := none } := by
  simp [loopBody, hsil]

/-- A run of silent chunks all read within `SILENCE_SECONDS` of a base
time `a`, starting from a listener whose pending silence (if any) began no
earlier than `a`, keeps the loop recording. -/
lemma silent_window_run (a : ℚ) :
    ∀ (evs : List (ℚ × List ℤ)) (s : ListenerState),
      s.recording = true →
      (s.silence_start_time = none ∨
        ∃ t0, s.silence_start_time = some t0 ∧ a ≤ t0) →
      (∀ e ∈ evs, isSilent e.2 = true ∧ a ≤ e.1 ∧ e.1 ≤ a + SILENCE_SECONDS) →
      (runLoopAux s (chunkEvents evs)).1.recording = true ∧
      (runLoopAux s (chunkEvents evs)).2 = LoopExit.running := by
  intro evs
  induction evs with
  | nil =>
    intro s hrec _ _
    simp [chunkEvents, runLoopAux, hrec]
  | cons e rest ih =>
    intro s hrec hinv hall
    obtain ⟨t, c⟩ := e
    obtain ⟨hsil, hta, htb⟩ := hall (t, c) (List.mem_cons_self _ _)
    have hrest : ∀ e ∈ rest, isSilent e.2 = true ∧ a ≤ e.1 ∧ e.1 ≤ a + SILENCE_SECONDS :=
      fun e he => hall e (List.mem_cons_of_mem _ he)
    rw [show chunkEvents ((t, c) :: rest) = ReadEvent.chunk t c :: chunkEvents rest from rfl,
      runLoopAux_cons_chunk hrec]
    rcases hinv with h0 | ⟨t0, h0, hat0⟩
    · rw [loopBody_silent_none t hsil h0]
      exact ih _ hrec (Or.inr ⟨t, rfl, hta⟩) hrest
    · have hle : ¬ t - t0 > SILENCE_SECONDS := by
        push_neg
        linarith
      rw [loopBody_silent_stale t hsil h0 hle]
      exact ih _ hrec (Or.inr ⟨t0, h0, hat0⟩) hrest

/-- One well-formed cycle of the periodic feed keeps the loop recording. -/
lemma cycle_run (cy : FeedCycle) (hok : cycleOK cy) (s : ListenerState)
    (hrec : s.recording = true) :
    (runLoopAux s (cycleEvents cy)).1.recording = true ∧
    (runLoopAux s (cycleEvents cy)).2 = LoopExit.running := by
  rw [cycleEvents, runLoopAux_cons_chunk hrec, loopBody_loud cy.base hok.1]
  exact silent_window_run cy.base cy.quiet _ hrec (Or.inl rfl) hok.2

/-- A whole periodic feed — one non-silent chunk per cycle, silent chunks
within `SILENCE_SECONDS` of it — never makes the loop stop. -/
lemma cycles_run :
    ∀ (cycles : List FeedCycle), (∀ cy ∈ cycles, cycleOK cy) →
      ∀ s : ListenerState, s.recording = true →
        (runLoopAux s (eventsOfCycles cycles)).1.recording = true ∧
        (runLoopAux s (eventsOfCycles cycles)).2 = LoopExit.running := by
  intro cycles
  induction cycles with
  | nil =>
    intro _ s hrec
    simp [eventsOfCycles, runLoopAux, hrec]
  | cons cy rest ih =>
    intro hall s hrec
    have h1 := cycle_run cy (hall cy (List.mem_cons_self _ _)) s hrec
    rw [eventsOfCycles, runLoopAux_append, if_pos h1.2]
    exact ih (fun c hc => hall c (List.mem_cons_of_mem _ hc)) _ h1.1

/-- With silence already pending since `t0` and only silent chunks coming,
the loop stops (internally) as soon as some read happens more than
`SILENCE_SECONDS` after `t0`. -/
lemma silent_run_stops :
    ∀ (evs : List (ℚ × List ℤ)) (s : ListenerState) (t0 : ℚ),
      s.recording = true → s.silence_start_time = some t0 →
      (∀ e ∈ evs, isSilent e.2 = true) →
      (∃ e ∈ evs, e.1 - t0 > SILENCE_SECONDS) →
      (runLoopAux s (chunkEvents evs)).1.recording = false ∧
      (runLoopAux s (chunkEvents evs)).2 = LoopExit.exited := by
  intro evs
  induction evs with
  | nil =>
    intro s t0 _ _ _ hex
    simp at hex
  | cons e rest ih =>
    intro s t0 hrec hsil0 hall hex
    obtain ⟨t, c⟩ := e
    have hsilc : isSilent c = true := (hall (t, c) (List.mem_cons_self _ _))
    rw [show chunkEvents ((t, c) :: rest) = ReadEvent.chunk t c :: chunkEvents rest from rfl,
      runLoopAux_cons_chunk hrec]
    by_cases hgt : t - t0 > SILENCE_SECONDS
    · rw [loopBody_silent_stop t hrec hsilc hsil0 hgt,
        runLoopAux_not_recording rfl]
      exact ⟨rfl, rfl⟩
    · rw [loopBody_silent_stale t hsilc hsil0 hgt]
      refine ih _ t0 hrec hsil0 (fun e he => hall e (List.mem_cons_of_mem _ he)) ?_
      obtain ⟨e, he, hegt⟩ := hex
      rcases List.mem_cons.mp he with rfl | he'
      · exact absurd hegt hgt
      · exact ⟨e, he', hegt⟩

/-! ## Claim theorems -/

/-- Claim C1: during the capture loop the silence-start timestamp is set
the first time a silent chunk is seen (none pending), cleared by every
non-silent chunk, and once a silent chunk is read more than
`SILENCE_SECONDS` after the pending start the loop performs exactly an
internal `stop()` (the recording flag drops with no external call — the
stop is the loop body itself).  Consequently a fresh session fed only
silent chunks, one of them more than 30 seconds after the first, ends with
`recording = false`; and a session fed a non-silent chunk at the base of
every cycle with the silent chunks staying within 30 seconds of that base
— in particular one non-silent chunk every 29 seconds — never auto-stops. -/
theorem C1_silence_autostop :
    (∀ (s : ListenerState) (t : ℚ) (c : List ℤ),
        s.recording = true → isSilent c = true → s.silence_start_time = none →
        (loopBody s t c).silence_start_time = some t) ∧
    (∀ (s : ListenerState) (t : ℚ) (c : List ℤ),
        s.recording = true → isSilent c = false →
        (loopBody s t c).silence_start_time = none) ∧
    (∀ (s : ListenerState) (t : ℚ) (c : List ℤ) (t0 : ℚ),
        s.recording = true → isSilent c = true → s.silence_start_time = some t0 →
        t - t0 > SILENCE_SECONDS →
        loopBody s t c = AudioListener.stop { s with frames := s.frames ++ [c] } ∧
        (loopBody s t c).recording = false) ∧
    (∀ (t0 : ℚ) (c0 : List ℤ) (evs : List (ℚ × List ℤ)),
        isSilent c0 = true → (∀ e ∈ evs, isSilent e.2 = true) →
        (∃ e ∈ evs, e.1 > t0 + SILENCE_SECONDS) →
        (runLoopAux { recording := true, silence_start_time := none, frames := [] }
            (chunkEvents ((t0, c0) :: evs))).1.recording = false) ∧
    (∀ cycles : List FeedCycle, (∀ cy ∈ cycles, cycleOK cy) →
        (runLoopAux { recording := true, silence_start_time := none, frames := [] }
            (eventsOfCycles cycles)).1.recording = true) := by
  refine ⟨?_, ?_, ?_, ?_, ?_⟩
  · intro s t c _ hsil h0
    rw [loopBody_silent_none t hsil h0]
  · intro s t c _ hsil
    rw [loopBody_loud t hsil]
  · intro s t c t0 hrec hsil h0 hgt
    constructor
    · rw [loopBody_silent_stop t hrec hsil h0 hgt,
        stop_of_recording (show ({ s with frames := s.frames ++ [c] }).recording = true from hrec)]
    · rw [loopBody_silent_stop t hrec hsil h0 hgt]
  · intro t0 c0 evs hsil0 hall hex
    rw [show chunkEvents ((t0, c0) :: evs) = ReadEvent.chunk t0 c0 :: chunkEvents evs from rfl,
      runLoopAux_cons_chunk rfl, loopBody_silent_none t0 hsil0 rfl]
    refine (silent_run_stops evs _ t0 rfl rfl hall ?_).1
    obtain ⟨e, he, hegt⟩ := hex
    exact ⟨e, he, by linarith⟩
  · intro cycles hall
    exact (cycles_run cycles hall _ rfl).1

/-- Witness for C1: concrete instances of every conjunct — a silent chunk
at time 0 sets the timestamp, a loud chunk clears it, a silent chunk at
time 31 with silence pending since 0 drops the flag, a fresh session fed
silent chunks at 0 and 31 stops, and one loud chunk at 0 followed by a
silent chunk at 29 keeps recording. -/
theorem C1_witness :
    (loopBody { recording := true, silence_start_time := none, frames := [] }
        0 [0]).silence_start_time = some 0 ∧
    (loopBody { recording := true, silence_start_time := none, frames := [] }
        0 [600]).silence_start_time = none ∧
    (loopBody { recording := true, silence_start_time := some 0, frames := [] }
        31 [0]).recording = false ∧
    (runLoopAux { recording := true, silence_start_time := none, frames := [] }
        (chunkEvents [(0, [0]), (31, [0])])).1.recording = false ∧
    (runLoopAux { recording := true, silence_start_time := none, frames := [] }
        (eventsOfCycles [{ base := 0, loud := [600], quiet := [(29, [0])] }])).1.recording =
      true :=
  ⟨C1_silence_autostop.1 _ 0 [0] rfl (by decide) rfl,
   C1_silence_autostop.2.1 _ 0 [600] rfl (by decide),
   (C1_silence_autostop.2.2.1 _ 31 [0] 0 rfl (by decide) rfl
     (by norm_num [SILENCE_SECONDS])).2,
   C1_silence_autostop.2.2.2.1 0 [0] [(31, [0])] (by decide)
     (by
       intro e he
       rw [List.mem_singleton] at he
       subst he
       decide)
     ⟨(31, [0]), List.mem_singleton.mpr rfl, by norm_num [SILENCE_SECONDS]⟩,
   C1_silence_autostop.2.2.2.2 [{ base := 0, loud := [600], quiet := [(29, [0])] }]
     (by
       intro cy hcy
       rw [List.mem_singleton] at hcy
       subst hcy
       refine ⟨by decide, ?_⟩
       intro e he
       rw [List.mem_singleton] at he
       subst he
       exact ⟨by decide, by norm_num, by norm_num [SILENCE_SECONDS]⟩)⟩

/-- Claim C2: the silence classification of a (nonempty) chunk of signed
16-bit samples holds exactly when the root-mean-square amplitude of the
samples is strictly below the threshold 500, and a chunk whose RMS equals
the threshold is not silent. -/
theorem C2_isSilent_iff_rms_lt (chunk : List ℤ) (hne : chunk ≠ [])
    (_h16 : ∀ s ∈ chunk, -32768 ≤ s ∧ s < 32768) :
    (isSilent chunk = true ↔
      Real.sqrt ((sq_sum chunk : ℝ) / (chunk.length : ℝ)) < (SILENCE_THRESHOLD : ℝ)) ∧
    (Real.sqrt ((sq_sum chunk : ℝ) / (chunk.length : ℝ)) = (SILENCE_THRESHOLD : ℝ) →
      isSilent chunk = false) := by
  have hlen : 0 < chunk.length := List.length_pos.mpr hne
  have hlenR : (0 : ℝ) < (chunk.length : ℝ) := by exact_mod_cast hlen
  have key : isSilent chunk = true ↔
      Real.sqrt ((sq_sum chunk : ℝ) / (chunk.length : ℝ)) < (SILENCE_THRESHOLD : ℝ) := by
    rw [isSilent, decide_eq_true_iff]
    have h500 : (0 : ℝ) < (SILENCE_THRESHOLD : ℝ) := by
      norm_num [SILENCE_THRESHOLD]
    rw [Real.sqrt_lt' h500, div_lt_iff₀ hlenR]
    constructor
    · rintro ⟨-, h⟩
      exact_mod_cast h
    · intro h
      exact ⟨hlen, by exact_mod_cast h⟩
  refine ⟨key, fun heq => ?_⟩
  cases hval : isSilent chunk with
  | false => rfl
  | true =>
    exact absurd (key.mp hval) (by rw [heq]; exact lt_irrefl _)

/-- Witness for C2 at the all-zero one-sample chunk. -/
theorem C2_witness :
    ((isSilent [(0 : ℤ)] = true ↔
       Real.sqrt ((sq_sum [(0 : ℤ)] : ℝ) / (([(0 : ℤ)] : List ℤ).length : ℝ)) <
         (SILENCE_THRESHOLD : ℝ)) ∧
     (Real.sqrt ((sq_sum [(0 : ℤ)] : ℝ) / (([(0 : ℤ)] : List ℤ).length : ℝ)) =
         (SILENCE_THRESHOLD : ℝ) →
       isSilent [(0 : ℤ)] = false)) :=
  C2_isSilent_iff_rms_lt [0] (by decide) (by decide)

/-- Claim C3, counterexample: the claim says the device stream is closed on
every exit path, including an exception raised mid-loop.  In the source
`stream.stop_stream(); stream.close()` sit inside the `try` block after the
`while` loop, so a failing `stream.read` skips them: here one chunk is read
and then the read raises — the buffer is still flushed (`file` is written)
but `closed = false`. -/
theorem C3_counterexample :
    recording_loop true { recording := true, silence_start_time := none, frames := [] }
        [ReadEvent.chunk 0 [600], ReadEvent.fail] =
      some { exitFrames := [[600]], closed := false, raised := true,
             file := some { nchannels := 1, sampwidth := 2, framerate := 16000,
                            data := [600] },
             finalState := { recording := true, silence_start_time := none,
                             frames := [] } } := by
  decide

/-- Claim C3, amended: whenever `_recording_loop` exits — normally, via an
exception during `p.open`, or via an exception during a read — the frame
buffer is flushed by `_save_recording` (and cleared on success); the stream
close, however, runs exactly on the normal exits, never on the exceptional
ones. -/
theorem C3_cleanup_on_exit (openOk : Bool) (s0 : ListenerState)
    (reads : List ReadEvent) (r : LoopResult)
    (h : recording_loop openOk s0 reads = some r) :
    r.file = (save_recording r.exitFrames).1 ∧
    r.finalState.frames = (save_recording r.exitFrames).2 ∧
    (r.closed = true ↔ r.raised = false) := by
  unfold recording_loop at h
  by_cases hopen : openOk = true
  · rw [if_pos hopen] at h
    rcases hrun : runLoopAux s0 reads with ⟨s, ex⟩
    rw [hrun] at h
    cases ex with
    | running => simp at h
    | exited =>
      rw [Option.some_inj] at h
      subst h
      exact ⟨rfl, rfl, by simp⟩
    | raised =>
      rw [Option.some_inj] at h
      subst h
      exact ⟨rfl, rfl, by simp⟩
  · rw [if_neg hopen] at h
    rw [Option.some_inj] at h
    subst h
    exact ⟨rfl, rfl, by simp⟩

/-- Witness for C3 at a loop that exits normally at once (flag already
down, empty buffer): the run completes, the flush is attempted (a no-op on
the empty buffer) and the stream is closed. -/
theorem C3_witness :
    (recording_loop true { recording := false, silence_start_time := none, frames := [] }
        [] =
      some { exitFrames := [], closed := true, raised := false, file := none,
             finalState := { recording := false, silence_start_time := none,
                             frames := [] } }) ∧
    (({ exitFrames := [], closed := true, raised := false, file := none,
        finalState := { recording := false, silence_start_time := none,
                        frames := [] } } : LoopResult).file =
        (save_recording ({ exitFrames := [], closed := true, raised := false,
                           file := none,
                           finalState := { recording := false,
                                           silence_start_time := none,
                                           frames := [] } : LoopResult}).exitFrames).1 ∧
     ({ exitFrames := [], closed := true, raised := false, file := none,
        finalState := { recording := false, silence_start_time := none,
                        frames := [] } } : LoopResult).finalState.frames =
        (save_recording ({ exitFrames := [], closed := true, raised := false,
                           file := none,
                           finalState := { recording := false,
                                           silence_start_time := none,
                                           frames := [] } : LoopResult}).exitFrames).2 ∧
     (({ exitFrames := [], closed := true, raised := false, file := none,
         finalState := { recording := false, silence_start_time := none,
                         frames := [] } } : LoopResult).closed = true ↔
       ({ exitFrames := [], closed := true, raised := false, file := none,
          finalState := { recording := false, silence_start_time := none,
                          frames := [] } } : LoopResult).raised = false)) :=
  ⟨by decide,
   C3_cleanup_on_exit true { recording := false, silence_start_time := none, frames := [] }
     [] _ (by decide)⟩

/-- Claim C4, counterexample: the claim says a flush of an empty buffer
still produces a file with a well-formed zero-frame header; in the source
`_save_recording` returns before `wave.open` when `self.frames` is empty,
so no file at all is produced. -/
theorem C4_counterexample :
    (save_recording ([] : List (List ℤ))).1 = none := by
  decide

/-- Claim C4, amended: for a nonempty buffer the flush writes one file
whose header declares mono, 16-bit (sample width 2), 16 kHz, whose payload
is the buffered chunks concatenated in buffer order, and whose declared
frame count is the number of chunks times the chunk size whenever every
chunk is full-sized; the buffer is cleared afterwards.  For an empty
buffer no file is produced (see the counterexample and claim C5). -/
theorem C4_flush_format (frames : List (List ℤ)) (hne : frames ≠ []) :
    ∃ w : WavFile,
      save_recording frames = (some w, []) ∧
      w.nchannels = CHANNELS ∧ w.sampwidth = SAMPLE_WIDTH ∧ w.framerate = RATE ∧
      w.data = frames.flatten ∧
      ((∀ c ∈ frames, c.length = CHUNK) → w.nframes = frames.length * CHUNK) := by
  refine ⟨{ nchannels := CHANNELS, sampwidth := SAMPLE_WIDTH, framerate := RATE,
            data := frames.flatten }, ?_, rfl, rfl, rfl, rfl, ?_⟩
  · simp [save_recording, hne]
  · intro hall
    have hlen : frames.flatten.length = frames.length * CHUNK := by
      rw [List.length_flatten]
      rw [List.map_congr_left fun c hc => hall c hc]
      simp [Nat.mul_comm]
    simp [WavFile.nframes, CHANNELS, hlen]

/-- Witness for C4 at a one-chunk buffer (the chunk-count clause checked
at a full-sized chunk of zeros). -/
theorem C4_witness :
    ∃ w : WavFile,
      save_recording [List.replicate CHUNK (0 : ℤ)] = (some w, []) ∧
      w.nchannels = CHANNELS ∧ w.sampwidth = SAMPLE_WIDTH ∧ w.framerate = RATE ∧
      w.data = [List.replicate CHUNK (0 : ℤ)].flatten ∧
      ((∀ c ∈ [List.replicate CHUNK (0 : ℤ)], c.length = CHUNK) →
        w.nframes = [List.replicate CHUNK (0 : ℤ)].length * CHUNK) :=
  C4_flush_format [List.replicate CHUNK 0] (by simp)

/-- Claim C5: flushing an empty buffer is a no-op — no file is produced
and the buffer (hence the listener state) is unchanged. -/
theorem C5_empty_flush_noop (frames : List (List ℤ)) (h : frames = []) :
    save_recording frames = (none, frames) := by
  subst h
  decide

/-- Witness for C5 at the empty buffer. -/
theorem C5_witness : save_recording ([] : List (List ℤ)) = (none, []) :=
  C5_empty_flush_noop [] rfl

/-- Looking up the key just assigned finds the new binding. -/
lemma dictGet_cons_self (l : List (String × Result)) (k : String) (r : Result) :
    dictGet ((k, r) :: l) k = some r := by
  simp [dictGet]

/-- Every path of `process_audio_pipeline` stores a `Result` under the
meeting id and resets the status to idle. -/
lemma pipeline_stores_and_idles (process_transcript : String → Processed)
    (st : AppState) (meeting_id : String) (tr : Option Transcription) :
    (process_audio_pipeline process_transcript st meeting_id tr).status = AppStatus.idle ∧
    (dictGet (process_audio_pipeline process_transcript st meeting_id tr).minutes_data
      meeting_id).isSome = true := by
  cases tr with
  | none =>
    exact ⟨rfl, by rw [show (process_audio_pipeline process_transcript st meeting_id
      none).minutes_data = (meeting_id, Result.err "Transcription failed.") ::
      st.minutes_data from rfl, dictGet_cons_self]; rfl⟩
  | some t =>
    by_cases h : t.text = ""
    · refine ⟨by simp [process_audio_pipeline, h], ?_⟩
      have : (process_audio_pipeline process_transcript st meeting_id
          (some t)).minutes_data =
          (meeting_id, Result.err "Transcription failed.") :: st.minutes_data := by
        simp [process_audio_pipeline, h]
      rw [this, dictGet_cons_self]
      rfl
    · refine ⟨by simp [process_audio_pipeline, h], ?_⟩
      have : (process_audio_pipeline process_transcript st meeting_id
          (some t)).minutes_data =
          (meeting_id,
            Result.minutes
              { meeting_id := meeting_id,
                full_transcript := t.text,
                summary := (process_transcript t.text).summary,
                action_items := (process_transcript t.text).action_items,
                reminders := (process_transcript t.text).reminders,
                timed_transcript := t.segments }) :: st.minutes_data := by
        simp [process_audio_pipeline, h]
      rw [this, dictGet_cons_self]
      rfl

/-- Claim C6, counterexample: with the phase at processing and an empty
frame buffer, `save_and_process` writes no file, never launches the
pipeline, and leaves the state untouched — no `Result` is stored and the
status stays at processing forever, contradicting "the system never
remains permanently in Processing". -/
theorem C6_counterexample :
    save_and_process (fun _ => { summary := "", action_items := [], reminders := [] })
        { status := AppStatus.processing, current_meeting_id := some "m",
          minutes_data := [], listener := none }
        "m" [] none =
      { status := AppStatus.processing, current_meeting_id := some "m",
        minutes_data := [], listener := none } := by
  decide

/-- Claim C6, amended: every execution path of the downstream pipeline —
including transcription returning an empty or absent transcript — stores a
`Result` under the session id and returns the phase to idle, and the same
holds for the capture completion hook whenever the frame buffer is
nonempty; but when capture ends with an empty buffer no output file exists,
the pipeline is never launched, and the phase stays at processing. -/
theorem C6_pipeline_idles :
    (∀ (process_transcript : String → Processed) (st : AppState)
       (meeting_id : String) (tr : Option Transcription),
        (process_audio_pipeline process_transcript st meeting_id tr).status =
          AppStatus.idle ∧
        (dictGet (process_audio_pipeline process_transcript st meeting_id
          tr).minutes_data meeting_id).isSome = true) ∧
    (∀ (process_transcript : String → Processed) (st : AppState)
       (meeting_id : String) (frames : List (List ℤ)) (tr : Option Transcription),
        frames ≠ [] →
        (save_and_process process_transcript st meeting_id frames tr).status =
          AppStatus.idle ∧
        (dictGet (save_and_process process_transcript st meeting_id frames
          tr).minutes_data meeting_id).isSome = true) := by
  refine ⟨pipeline_stores_and_idles, ?_⟩
  intro process_transcript st meeting_id frames tr hne
  have hsave : (save_recording frames).1 =
      some { nchannels := CHANNELS, sampwidth := SAMPLE_WIDTH, framerate := RATE,
             data := frames.flatten } := by
    simp [save_recording, hne]
  have : save_and_process process_transcript st meeting_id frames tr =
      process_audio_pipeline process_transcript st meeting_id tr := by
    rw [save_and_process, hsave]
  rw [this]
  exact pipeline_stores_and_idles process_transcript st meeting_id tr

/-- Witness for C6: the pipeline on a failed transcription stores an error
and idles; the completion hook on a one-chunk buffer does the same. -/
theorem C6_witness :
    ((process_audio_pipeline (fun _ => { summary := "", action_items := [], reminders := [] })
        { status := AppStatus.processing, current_meeting_id := some "m",
          minutes_data := [], listener := none } "m" none).status = AppStatus.idle ∧
      (dictGet (process_audio_pipeline
          (fun _ => { summary := "", action_items := [], reminders := [] })
          { status := AppStatus.processing, current_meeting_id := some "m",
            minutes_data := [], listener := none } "m" none).minutes_data
        "m").isSome = true) ∧
    ((save_and_process (fun _ => { summary := "", action_items := [], reminders := [] })
        { status := AppStatus.processing, current_meeting_id := some "m",
          minutes_data := [], listener := none } "m" [[0]] none).status =
        AppStatus.idle ∧
      (dictGet (save_and_process
          (fun _ => { summary := "", action_items := [], reminders := [] })
          { status := AppStatus.processing, current_meeting_id := some "m",
            minutes_data := [], listener := none } "m" [[0]] none).minutes_data
        "m").isSome = true) :=
  ⟨C6_pipeline_idles.1 _ _ "m" none,
   C6_pipeline_idles.2 _ _ "m" [[0]] none (by decide)⟩

/-- Claim C7: state-machine misuse is rejected synchronously and without
side effects — `start_recording` outside the idle phase answers 409 with
the busy error and returns the state (phase, meeting id, stored minutes
and the listener global, hence no second capture session) unchanged, and
`stop_recording` outside the recording phase answers 400 with the
not-recording error and likewise changes nothing. -/
theorem C7_misuse_rejected :
    (∀ (st : AppState) (meeting_id : String), st.status ≠ AppStatus.idle →
      start_recording st meeting_id = (st, 409, some "Application is not idle.")) ∧
    (∀ st : AppState, st.status ≠ AppStatus.recording →
      stop_recording st = (st, 400, some "Not currently recording.")) := by
  constructor
  · intro st meeting_id h
    simp [start_recording, h]
  · intro st h
    simp [stop_recording, h]

/-- Witness for C7: a recording-phase state rejects `start_recording`, an
idle state rejects `stop_recording`. -/
theorem C7_witness :
    start_recording
        { status := AppStatus.recording, current_meeting_id := some "m",
          minutes_data := [],
          listener := some ⟨true, none, []⟩ } "m2" =
      ({ status := AppStatus.recording, current_meeting_id := some "m",
         minutes_data := [],
         listener := some ⟨true, none, []⟩ }, 409,
       some "Application is not idle.") ∧
    stop_recording
        { status := AppStatus.idle, current_meeting_id := none,
          minutes_data := [], listener := none } =
      ({ status := AppStatus.idle, current_meeting_id := none,
         minutes_data := [], listener := none }, 400,
       some "Not currently recording.") :=
  ⟨C7_misuse_rejected.1 _ "m2" (by decide), C7_misuse_rejected.2 _ (by decide)⟩

/-- Claim C8, counterexample: `AudioListener.start` called while already
recording does not fail with an error — it returns normally (raising
nothing, with the same `None` return as the success path), merely printing
`Already recording.`; the claim that it fails with `AlreadyActive` rather
than silently returning is false. -/
theorem C8_counterexample :
    AudioListener.start { recording := true, silence_start_time := none, frames := [] } =
      { state := { recording := true, silence_start_time := none, frames := [] },
        raised := none, spawned := false, printed := ["Already recording."] } := by
  decide

/-- Claim C8, amended: `start()` called while already recording starts no
second capture (no thread is spawned and the state is unchanged), but it
reports the condition only by printing `Already recording.` and returns
normally — no `AlreadyActive` error is raised or returned to the caller. -/
theorem C8_start_when_recording (s : ListenerState) (h : s.recording = true) :
    AudioListener.start s =
      { state := s, raised := none, spawned := false,
        printed := ["Already recording."] } := by
  simp [AudioListener.start, h]

/-- Witness for C8 on a mid-capture listener state. -/
theorem C8_witness :
    AudioListener.start
        { recording := true, silence_start_time := some 5, frames := [[1]] } =
      { state := { recording := true, silence_start_time := some 5, frames := [[1]] },
        raised := none, spawned := false, printed := ["Already recording."] } :=
  C8_start_when_recording _ rfl

/-- Claim C9: `get_minutes` is a read-only, non-blocking lookup (a pure
function of the state, returned unchanged): any meeting id absent from
`minutes_data` — unknown, or known but with its pipeline not yet finished,
since the pipeline stores the `Result` only on completion — answers 404
with no payload, and a stored id answers exactly the stored `Result`,
never a partial one. -/
theorem C9_get_minutes_lookup (st : AppState) (meeting_id : String) :
    (get_minutes st meeting_id).1 = st ∧
    (dictGet st.minutes_data meeting_id = none →
      get_minutes st meeting_id = (st, 404, none)) ∧
    (∀ r : Result, dictGet st.minutes_data meeting_id = some r →
      get_minutes st meeting_id = (st, 200, some r)) := by
  cases h : dictGet st.minutes_data meeting_id with
  | none =>
    refine ⟨by simp [get_minutes, h], fun _ => by simp [get_minutes, h],
      fun r hr => ?_⟩
    exact absurd hr (by simp)
  | some r =>
    refine ⟨by simp [get_minutes, h], fun h0 => absurd h0 (by simp),
      fun r' hr => ?_⟩
    cases hr
    simp [get_minutes, h]

/-- Witness for C9: lookup of an unknown id on a processing-phase state
(no result stored yet) answers 404. -/
theorem C9_witness :
    get_minutes
        { status := AppStatus.processing, current_meeting_id := some "m",
          minutes_data := [], listener := none } "m" =
      ({ status := AppStatus.processing, current_meeting_id := some "m",
         minutes_data := [], listener := none }, 404, none) :=
  (C9_get_minutes_lookup _ "m").2.1 rfl

/-- Claim C10: for every transcript (and whatever the regex engine
returns for each pattern), the reminders list produced by `extract_dates`
has no duplicates — each matched date string occurs at most once — and its
members are exactly the strings matched by some pattern. -/
theorem C10_extract_dates_nodup :
    ∀ (findall : String → String → List String) (text : String),
      (extract_dates findall text).Nodup ∧
      (∀ s : String, (extract_dates findall text).count s ≤ 1) ∧
      (∀ s : String, s ∈ extract_dates findall text ↔
        s ∈ (patterns.map fun p => findall p text).flatten) := by
  intro findall text
  refine ⟨List.nodup_dedup _, ?_, ?_⟩
  · intro s
    exact List.nodup_iff_count_le_one.mp (List.nodup_dedup _) s
  · intro s
    exact List.mem_dedup

end MinuteMate
